import Mathlib

/-!
Shallow embedding of `grpc-client/client.py` from the `wx-yz/ai-gateway`
repository.

The script opens an insecure gRPC channel to `localhost:8082`, builds one
`ChatCompletionRequest`, performs one blocking unary call, prints the
response fields to standard output, and catches `grpc.RpcError` only.

Modelling choices:
* Protobuf message types (`Message`, `ChatCompletionRequest`,
  `ChatCompletionResponse`, `Choice`, `Usage`) become Lean structures with
  the field names used by the script; token counters are `Nat`, the
  `temperature` float literal `0.7` is embedded as the rational it denotes
  (no floating-point arithmetic is ever performed on it).
* The RPC layer is an explicit environment `Env`: it may inject a Python
  exception at channel creation or stub creation, and provides the remote
  service as a `Service` (a latency `delay` plus a result function mapping
  the request to a response or a raised exception).
* The generated stub call takes an optional client deadline, modelling the
  `timeout` parameter of gRPC Python's unary call; a configured deadline
  shorter than the service delay yields a `DEADLINE_EXCEEDED` RpcError.
  The script passes no deadline, i.e. `none`.
* `run` returns a `RunResult` recording the channels opened, the requests
  issued over the wire, the lines printed to standard output (Python's
  `print` writes to stdout), and the exception propagating out of `run`,
  if any (`none` when `run` returns normally).
-/

/-- A Python exception: either a `grpc.RpcError` (with its rendered
details, as produced by `str(e)`), or an exception of any other type. -/
inductive PyExc where
  | rpcError (details : String)
  | other (name : String) (details : String)
deriving DecidableEq, Repr

/-- A chat message: `ai_gateway_pb2.Message`. -/
structure Message where
  role : String
  content : String
deriving DecidableEq, Repr

/-- The request message: `ai_gateway_pb2.ChatCompletionRequest`. -/
structure ChatCompletionRequest where
  llm_provider : String
  messages : List Message
  temperature : ℚ
  max_tokens : Nat
deriving DecidableEq, Repr

/-- Token accounting of a response: the `usage` submessage. -/
structure Usage where
  prompt_tokens : Nat
  completion_tokens : Nat
  total_tokens : Nat
deriving DecidableEq, Repr

/-- One choice of a response: a message plus a finish reason. -/
structure Choice where
  message : Message
  finish_reason : String
deriving DecidableEq, Repr

/-- The response message: `ai_gateway_pb2.ChatCompletionResponse`. -/
structure ChatCompletionResponse where
  id : String
  model : String
  choices : List Choice
  usage : Usage
deriving DecidableEq, Repr

/-- A gRPC channel: its target address and whether transport security
(TLS / credential exchange) is configured on it. -/
structure Channel where
  target : String
  secured : Bool
deriving DecidableEq, Repr

namespace grpc

/-- `grpc.insecure_channel(target)`: a channel to `target` with no
transport security and no credential exchange. -/
def insecure_channel (target : String) : Channel :=
  ⟨target, false⟩

end grpc

/-- The remote service as seen through the RPC layer: a latency and a
result function (a normal response, or a raised exception — in particular
an `RpcError` such as `UNAVAILABLE` for an unreachable endpoint). -/
structure Service where
  delay : Nat
  result : ChatCompletionRequest → Except PyExc ChatCompletionResponse

/-- The generated client stub `ai_gateway_pb2_grpc.AIGatewayStub`,
wrapping the channel it was created on. -/
structure AIGatewayStub where
  channel : Channel

/-- The unary call `stub.ChatCompletion(request)` against service `svc`,
with optional client deadline `timeout` (gRPC Python's `timeout=None`
default). A deadline shorter than the service's latency terminates the
call with a `DEADLINE_EXCEEDED` RpcError; with no deadline the call
blocks until the service's result, however large `svc.delay` is. -/
def AIGatewayStub.ChatCompletion (_stub : AIGatewayStub) (svc : Service)
    (req : ChatCompletionRequest) (timeout : Option Nat) :
    Except PyExc ChatCompletionResponse :=
  match timeout with
  | none => svc.result req
  | some t => if t < svc.delay then .error (.rpcError "DEADLINE_EXCEEDED")
              else svc.result req

/-- The environment of one `run()` invocation: exceptions injected at the
two library calls preceding the `try` block, and the remote service. -/
structure Env where
  channelExc : Option PyExc
  stubExc : Option PyExc
  service : Service

/-- Observable outcome of one `run()` invocation: channels opened,
requests issued over the wire, lines printed to standard output, and the
exception propagating uncaught out of `run` (if any). -/
structure RunResult where
  channels : List Channel
  requests : List ChatCompletionRequest
  output : List String
  raised : Option PyExc
deriving Repr

/-- The request literal built by `run()` (client.py lines 13–27). -/
def request : ChatCompletionRequest :=
  ⟨"ollama",
   [⟨"system", "You are a helpful assistant."⟩,
    ⟨"user", "What is the capital of France?"⟩],
   0.7,
   1000⟩

/-- `run()` from client.py: create the channel and the stub, build the
request, then inside `try`: make the call and print the response fields;
`except grpc.RpcError as e`: print the one-line diagnostic. Exceptions at
channel or stub creation, and non-`RpcError` exceptions from the call,
propagate out. -/
def run (env : Env) : RunResult :=
  match env.channelExc with
  | some e => ⟨[], [], [], some e⟩
  | none =>
    let channel := grpc.insecure_channel "localhost:8082"
    match env.stubExc with
    | some e => ⟨[channel], [], [], some e⟩
    | none =>
      let stub : AIGatewayStub := ⟨channel⟩
      match stub.ChatCompletion env.service request none with
      | .ok response =>
          ⟨[channel], [request],
           "Response received:" ::
           ("ID: " ++ response.id) ::
           ("Model: " ++ response.model) ::
           ((response.choices.flatMap (fun choice =>
               ["Response: " ++ choice.message.content,
                "Finish reason: " ++ choice.finish_reason])) ++
            ["Usage - Prompt tokens: " ++ toString response.usage.prompt_tokens,
             "Usage - Completion tokens: " ++ toString response.usage.completion_tokens,
             "Usage - Total tokens: " ++ toString response.usage.total_tokens]),
           none⟩
      | .error (.rpcError d) =>
          ⟨[channel], [request], ["RPC failed: " ++ d], none⟩
      | .error e =>
          ⟨[channel], [request], [], some e⟩

/-- Two consecutive invocations of `run()` against the same environment;
the script holds no module-level mutable state, so no state is threaded
from the first invocation into the second. -/
def runTwice (env : Env) : RunResult × RunResult :=
  (run env, run env)

/-- Exit status of the process (`if __name__ == main: run()`): 0 when
`run` returns normally (including the caught-`RpcError` path), nonzero
when an exception propagates uncaught out of the entry point. -/
def mainExitCode (env : Env) : Nat :=
  match (run env).raised with
  | none => 0
  | some _ => 1

/-! ### Sample environments used by the witness theorems -/

/-- A sample well-formed response with one choice. -/
def sampleResponse : ChatCompletionResponse :=
  ⟨"chatcmpl-123", "llama3",
   [⟨⟨"assistant", "The capital of France is Paris."⟩, "stop"⟩],
   ⟨25, 12, 37⟩⟩

/-- A reachable service answering every request with `sampleResponse`. -/
def okService : Service :=
  ⟨0, fun _ => .ok sampleResponse⟩

/-- An unreachable endpoint: every call fails with an `UNAVAILABLE`
RpcError. -/
def downService : Service :=
  ⟨0, fun _ => .error (.rpcError "StatusCode.UNAVAILABLE: failed to connect to all addresses")⟩

/-- A sample response whose choices list is empty. -/
def emptyChoicesResponse : ChatCompletionResponse :=
  ⟨"chatcmpl-0", "llama3", [], ⟨7, 0, 7⟩⟩

/-- A service answering with a response that has zero choices. -/
def emptyChoicesService : Service :=
  ⟨0, fun _ => .ok emptyChoicesResponse⟩

/-! ### Helper lemmas -/

/-- When channel and stub creation succeed, `run` issues exactly one
request over the wire: the hardcoded literal. -/
lemma run_requests_ok (svc : Service) :
    (run ⟨none, none, svc⟩).requests = [request] := by
  cases hr : svc.result request with
  | ok response => simp [run, AIGatewayStub.ChatCompletion, hr]
  | error e => cases e <;> simp [run, AIGatewayStub.ChatCompletion, hr]

/-- The header line differs from every possible ID line. -/
lemma header_ne_id_line (s : String) : "Response received:" ≠ "ID: " ++ s := by
  intro h
  have h2 := congrArg String.data h
  rw [String.data_append] at h2
  have h3 : ("Response received:".data).head? = ("ID: ".data ++ s.data).head? :=
    congrArg List.head? h2
  simp [show ("Response received:".data) = 'R' :: "esponse received:".data from rfl,
        show ("ID: ".data) = 'I' :: "D: ".data from rfl] at h3

/-- The header line differs from every possible failure diagnostic. -/
lemma header_ne_diagnostic (s : String) : "Response received:" ≠ "RPC failed: " ++ s := by
  intro h
  have h2 := congrArg String.data h
  rw [String.data_append] at h2
  simp [show ("Response received:".data) = 'R' :: 'e' :: "sponse received:".data from rfl,
        show ("RPC failed: ".data) = 'R' :: 'P' :: "C failed: ".data from rfl] at h2

/-! ### Claim theorems -/

/-- C1: every invocation of `run()` (with the channel and stub created
normally) issues exactly one `ChatCompletionRequest`, whose message
sequence is exactly the system message "You are a helpful assistant."
followed by the user message "What is the capital of France?", whose
temperature is 0.7, whose max_tokens is 1000, and whose provider
identifier is "ollama". -/
theorem run_issues_single_fixed_request (svc : Service) :
    (run ⟨none, none, svc⟩).requests = [request] ∧
    request.llm_provider = "ollama" ∧
    request.messages =
      [⟨"system", "You are a helpful assistant."⟩,
       ⟨"user", "What is the capital of France?"⟩] ∧
    request.temperature = 0.7 ∧
    request.max_tokens = 1000 :=
  ⟨run_requests_ok svc, rfl, rfl, rfl, rfl⟩

/-- C2: for every well-formed response the service returns, `run()`
prints in order: the header, the response's id, its model, one
"Response"/"Finish reason" line pair per choice (in the order and number
of the response's choices), then the three usage counters, each printed
value matching the corresponding response field. -/
theorem run_success_output (svc : Service) (response : ChatCompletionResponse)
    (h : svc.result request = .ok response) :
    (run ⟨none, none, svc⟩).output =
      "Response received:" ::
      ("ID: " ++ response.id) ::
      ("Model: " ++ response.model) ::
      ((response.choices.flatMap (fun choice =>
          ["Response: " ++ choice.message.content,
           "Finish reason: " ++ choice.finish_reason])) ++
       ["Usage - Prompt tokens: " ++ toString response.usage.prompt_tokens,
        "Usage - Completion tokens: " ++ toString response.usage.completion_tokens,
        "Usage - Total tokens: " ++ toString response.usage.total_tokens]) := by
  simp [run, AIGatewayStub.ChatCompletion, h]

/-- C2 witness: the success output at a concrete service and response. -/
theorem run_success_output_witness :
    (run ⟨none, none, okService⟩).output =
      "Response received:" ::
      ("ID: " ++ sampleResponse.id) ::
      ("Model: " ++ sampleResponse.model) ::
      ((sampleResponse.choices.flatMap (fun choice =>
          ["Response: " ++ choice.message.content,
           "Finish reason: " ++ choice.finish_reason])) ++
       ["Usage - Prompt tokens: " ++ toString sampleResponse.usage.prompt_tokens,
        "Usage - Completion tokens: " ++ toString sampleResponse.usage.completion_tokens,
        "Usage - Total tokens: " ++ toString sampleResponse.usage.total_tokens]) :=
  run_success_output okService sampleResponse rfl

/-- C3: for every failure surfaced by the RPC layer (an RpcError, e.g.
an unreachable endpoint), `run()` prints the single line
"RPC failed: " followed by the error's details, and no failure
propagates unhandled out of the entry point. -/
theorem run_rpc_error_absorbed (svc : Service) (d : String)
    (h : svc.result request = .error (.rpcError d)) :
    (run ⟨none, none, svc⟩).output = ["RPC failed: " ++ d] ∧
    (run ⟨none, none, svc⟩).raised = none := by
  refine ⟨?_, ?_⟩ <;> simp [run, AIGatewayStub.ChatCompletion, h]

/-- C3 witness: the RpcError path at a concrete unreachable service. -/
theorem run_rpc_error_absorbed_witness :
    (run ⟨none, none, downService⟩).output =
      ["RPC failed: " ++ "StatusCode.UNAVAILABLE: failed to connect to all addresses"] ∧
    (run ⟨none, none, downService⟩).raised = none :=
  run_rpc_error_absorbed downService
    "StatusCode.UNAVAILABLE: failed to connect to all addresses" rfl

/-- C4: on the failure path `run()` prints the diagnostic instead of the
response summary — the output is exactly the one diagnostic line on
standard output, the success header is not among the printed lines — and
the process exit status remains 0. -/
theorem run_failure_path_diagnostic (svc : Service) (d : String)
    (h : svc.result request = .error (.rpcError d)) :
    (run ⟨none, none, svc⟩).output = ["RPC failed: " ++ d] ∧
    "Response received:" ∉ (run ⟨none, none, svc⟩).output ∧
    mainExitCode ⟨none, none, svc⟩ = 0 := by
  refine ⟨?_, ?_, ?_⟩ <;>
    simp [run, mainExitCode, AIGatewayStub.ChatCompletion, h, header_ne_diagnostic d]

/-- C4 witness: the failure path at a concrete unreachable service. -/
theorem run_failure_path_diagnostic_witness :
    (run ⟨none, none, downService⟩).output =
      ["RPC failed: " ++ "StatusCode.UNAVAILABLE: failed to connect to all addresses"] ∧
    "Response received:" ∉ (run ⟨none, none, downService⟩).output ∧
    mainExitCode ⟨none, none, downService⟩ = 0 :=
  run_failure_path_diagnostic downService
    "StatusCode.UNAVAILABLE: failed to connect to all addresses" rfl

/-- C5: for a response whose choices list is empty, `run()` prints the
header, the id line, the model line and the three usage-counter lines,
with zero "Response"/"Finish reason" pairs, and completes without
error. -/
theorem run_empty_choices_output (svc : Service)
    (response : ChatCompletionResponse)
    (h : svc.result request = .ok response) (hc : response.choices = []) :
    (run ⟨none, none, svc⟩).output =
      ["Response received:",
       "ID: " ++ response.id,
       "Model: " ++ response.model,
       "Usage - Prompt tokens: " ++ toString response.usage.prompt_tokens,
       "Usage - Completion tokens: " ++ toString response.usage.completion_tokens,
       "Usage - Total tokens: " ++ toString response.usage.total_tokens] ∧
    (run ⟨none, none, svc⟩).raised = none := by
  refine ⟨?_, ?_⟩ <;> simp [run, AIGatewayStub.ChatCompletion, h, hc]

/-- C5 witness: the zero-choices output at a concrete service. -/
theorem run_empty_choices_output_witness :
    (run ⟨none, none, emptyChoicesService⟩).output =
      ["Response received:",
       "ID: " ++ emptyChoicesResponse.id,
       "Model: " ++ emptyChoicesResponse.model,
       "Usage - Prompt tokens: " ++ toString emptyChoicesResponse.usage.prompt_tokens,
       "Usage - Completion tokens: " ++ toString emptyChoicesResponse.usage.completion_tokens,
       "Usage - Total tokens: " ++ toString emptyChoicesResponse.usage.total_tokens] ∧
    (run ⟨none, none, emptyChoicesService⟩).raised = none :=
  run_empty_choices_output emptyChoicesService emptyChoicesResponse rfl rfl

/-- C6: invoking `run()` twice against the same service issues two
independent requests with identical content (each invocation issues the
request rebuilt from the same constants), and the two invocations have
identical observable behavior — no state is carried from the first into
the second (no request/response caching). -/
theorem run_twice_identical_requests (svc : Service) :
    (runTwice ⟨none, none, svc⟩).1.requests = [request] ∧
    (runTwice ⟨none, none, svc⟩).2.requests = [request] ∧
    (runTwice ⟨none, none, svc⟩).1 = (runTwice ⟨none, none, svc⟩).2 :=
  ⟨run_requests_ok svc, run_requests_ok svc, rfl⟩

/-- C7: every invocation of `run()` opens exactly one channel, to the
hardcoded endpoint "localhost:8082", with insecure semantics (no
transport security), independently of the environment. -/
theorem run_opens_fixed_insecure_channel (se : Option PyExc) (svc : Service) :
    (run ⟨none, se, svc⟩).channels = [grpc.insecure_channel "localhost:8082"] ∧
    grpc.insecure_channel "localhost:8082" = ⟨"localhost:8082", false⟩ := by
  refine ⟨?_, rfl⟩
  cases se with
  | some e => rfl
  | none =>
    cases hr : svc.result request with
    | ok response => simp [run, AIGatewayStub.ChatCompletion, hr]
    | error e => cases e <;> simp [run, AIGatewayStub.ChatCompletion, hr]

/-- C8: the call is made with no deadline and no timeout: the outcome of
`run()` is independent of the service's latency, however large, and the
unary call with no deadline delivers exactly the service's eventual
result. -/
theorem run_no_deadline (ce se : Option PyExc)
    (res : ChatCompletionRequest → Except PyExc ChatCompletionResponse)
    (d d' : Nat) :
    run ⟨ce, se, ⟨d, res⟩⟩ = run ⟨ce, se, ⟨d', res⟩⟩ ∧
    AIGatewayStub.ChatCompletion ⟨grpc.insecure_channel "localhost:8082"⟩
      ⟨d, res⟩ request none = res request := by
  refine ⟨?_, rfl⟩
  cases ce <;> cases se <;> rfl

/-- C9: on every success path the first printed line is the fixed header
"Response received:", and the first line is never the id line. -/
theorem run_header_precedes_id (svc : Service)
    (response : ChatCompletionResponse)
    (h : svc.result request = .ok response) :
    (run ⟨none, none, svc⟩).output.head? = some "Response received:" ∧
    (run ⟨none, none, svc⟩).output.head? ≠ some ("ID: " ++ response.id) := by
  constructor
  · simp [run, AIGatewayStub.ChatCompletion, h]
  · simp only [run, AIGatewayStub.ChatCompletion, h]
    intro hcontra
    exact header_ne_id_line response.id (by simpa using hcontra)

/-- C9 witness: the header line comes first at a concrete service. -/
theorem run_header_precedes_id_witness :
    (run ⟨none, none, okService⟩).output.head? = some "Response received:" ∧
    (run ⟨none, none, okService⟩).output.head? ≠
      some ("ID: " ++ sampleResponse.id) :=
  run_header_precedes_id okService sampleResponse rfl

/-- C10: `run()` catches exactly the RPC-layer error type: an exception
injected at channel creation or stub creation propagates uncaught (those
calls are outside the try block), a non-RpcError exception raised by the
call inside the try block propagates uncaught, and only an RpcError from
the call is absorbed. -/
theorem run_catch_classification (ce se : Option PyExc) (svc : Service) :
    (run ⟨ce, se, svc⟩).raised =
      match ce with
      | some e => some e
      | none =>
        match se with
        | some e => some e
        | none =>
          match svc.result request with
          | .error (.other n d) => some (.other n d)
          | _ => none := by
  cases ce with
  | some e => rfl
  | none =>
    cases se with
    | some e => rfl
    | none =>
      cases hr : svc.result request with
      | ok response => simp [run, AIGatewayStub.ChatCompletion, hr]
      | error e => cases e <;> simp [run, AIGatewayStub.ChatCompletion, hr]
